import Mathlib

/-!
# Shallow embedding of the SongFinder backend (src/app/main.py)

The program is a FastAPI application over two MongoDB collections
(`songs` and `reviews`) plus a search aggregator over the Last.fm and
MusicBrainz/Cover Art Archive HTTP APIs.

Modelling choices, all derived from the source:

* A MongoDB collection is a `List` of documents in insertion order.
  `find_one`/`find` return documents in that order; `insert_one` appends
  and returns a fresh generated `_id` (modelled by a `Nat` counter on the
  state); `delete_one` removes the first matching document and reports
  `deleted_count` 0 or 1; `delete_many` removes all matching documents;
  `replace_one` by `_id` replaces the document with that id;
  `update_one` with `$set` modifies the first matching document and its
  `modified_count` is 1 only when the `$set` actually changed the
  document (MongoDB semantics: a no-op update reports `modified_count = 0`).
* `datetime.now()` is modelled by a `Nat` timestamp passed to each
  request; the several `now()` calls inside one request are identified
  (they differ by at most microseconds in the source). Distinct requests
  may observe equal or differing timestamps, as in reality.
* `score` is a Python float that is only ever stored and compared for
  document equality, never computed with, so its carrier is `Int`.
* HTTP outcomes of external services are oracles: each remote call's
  result (connection error / exception, status code, parsed JSON payload)
  is an input to the embedded function.
-/

/-- `HTTPException(status_code, detail)` raised by the endpoints. -/
structure HTTPException where
  status_code : Nat
  detail : String
deriving Repr, DecidableEq

/-- Request body of `POST /api/songs` (pydantic model `Song`). -/
structure Song where
  song : String
  username : String
  artist : Option String
  title : Option String
  image : Option String
  listeners : Option String
  url : Option String
deriving Repr, DecidableEq

/-- A document of the `songs` collection: the `Song` body plus the
generated `_id` (modelled as `sid : Nat`). -/
structure SongDoc where
  sid : Nat
  song : String
  username : String
  artist : Option String
  title : Option String
  image : Option String
  listeners : Option String
  url : Option String
deriving Repr, DecidableEq

/-- Request body of `POST /api/reviews` (pydantic model `Review`). -/
structure Review where
  song_name : String
  artist : String
  title : String
  username : String
  score : Int
  review_text : String
  image : Option String
deriving Repr, DecidableEq

/-- Request body of `PUT /api/reviews/{username}/{song_name}`
(pydantic model `ReviewUpdate`). -/
structure ReviewUpdate where
  score : Int
  review_text : String
deriving Repr, DecidableEq

/-- A document of the `reviews` collection: the `Review` body plus the
generated `_id` (`rid`) and the `created_at` / `updated_at` stamps. -/
structure ReviewDoc where
  rid : Nat
  song_name : String
  artist : String
  title : String
  username : String
  score : Int
  review_text : String
  image : Option String
  created_at : Nat
  updated_at : Nat
deriving Repr, DecidableEq

/-- The persistent state: the two collections plus the id generator. -/
structure DB where
  songs : List SongDoc
  reviews : List ReviewDoc
  nextId : Nat
deriving Repr, DecidableEq

/-- Replace the first element satisfying `p` by `b` (semantics of
`update_one`-style single-document modification on a list collection). -/
def setFirst (p : α → Bool) (b : α) : List α → List α
  | [] => []
  | a :: as => if p a then b :: as else a :: setFirst p b as

/-- Filter of `collection.find_one({"song": .., "username": ..})`. -/
def songKey (song_name username : String) (d : SongDoc) : Bool :=
  d.song == song_name && d.username == username

/-- Filter of `reviews_collection` lookups by `{"song_name": .., "username": ..}`. -/
def reviewKey (song_name username : String) (r : ReviewDoc) : Bool :=
  r.song_name == song_name && r.username == username

/-- The document inserted by `POST /api/songs` (`song.dict()` plus `_id`). -/
def mkSongDoc (sid : Nat) (s : Song) : SongDoc :=
  { sid := sid, song := s.song, username := s.username, artist := s.artist,
    title := s.title, image := s.image, listeners := s.listeners, url := s.url }

/-- `add_song` (`POST /api/songs`): duplicate check on `(song, username)`,
then insert; returns the generated id. -/
def add_song (db : DB) (s : Song) : Except HTTPException (DB × Nat) :=
  match db.songs.find? (songKey s.song s.username) with
  | some _ => .error ⟨400, "Song already exists for this user"⟩
  | none =>
      .ok ({ db with songs := db.songs ++ [mkSongDoc db.nextId s],
                     nextId := db.nextId + 1 }, db.nextId)

/-- The review document built by `add_review`:
`review.dict()` with `created_at` and `updated_at` both stamped `now`. -/
def mkReviewDoc (rid : Nat) (rv : Review) (now : Nat) : ReviewDoc :=
  { rid := rid, song_name := rv.song_name, artist := rv.artist, title := rv.title,
    username := rv.username, score := rv.score, review_text := rv.review_text,
    image := rv.image, created_at := now, updated_at := now }

/-- `add_review` (`POST /api/reviews`): 404 unless a `SavedSong` with
`(song = song_name, username)` exists; then upsert by
`(song_name, username)` — `replace_one` by `_id` when a review is found,
`insert_one` otherwise. -/
def add_review (db : DB) (now : Nat) (rv : Review) :
    Except HTTPException (DB × String) :=
  match db.songs.find? (songKey rv.song_name rv.username) with
  | none => .error ⟨404, "Song not found in user's list"⟩
  | some _ =>
      match db.reviews.find? (reviewKey rv.song_name rv.username) with
      | some ex =>
          .ok ({ db with reviews :=
                   db.reviews.map fun r =>
                     if r.rid == ex.rid then mkReviewDoc ex.rid rv now else r },
               "Review updated successfully")
      | none =>
          .ok ({ db with reviews := db.reviews ++ [mkReviewDoc db.nextId rv now],
                         nextId := db.nextId + 1 },
               "Review added successfully")

/-- The `$set` document of `update_review` applied to a review. -/
def applyReviewUpdate (u : ReviewUpdate) (now : Nat) (r : ReviewDoc) : ReviewDoc :=
  { r with score := u.score, review_text := u.review_text, updated_at := now }

/-- `update_review` (`PUT /api/reviews/{username}/{song_name}`):
`update_one` with `$set {score, review_text, updated_at}` on the first
review matching `(song_name, username)`; 404 when `modified_count = 0`,
which happens both when no review matches and when the `$set` changes
nothing. -/
def update_review (db : DB) (now : Nat) (username song_name : String)
    (u : ReviewUpdate) : Except HTTPException DB :=
  match db.reviews.find? (reviewKey song_name username) with
  | none => .error ⟨404, "Review not found"⟩
  | some ex =>
      if applyReviewUpdate u now ex = ex then
        .error ⟨404, "Review not found"⟩
      else
        let rs := setFirst (reviewKey song_name username)
          (applyReviewUpdate u now ex) db.reviews
        .ok { db with reviews := rs }

/-- `delete_review` (`DELETE /api/reviews/{username}/{song_name}`):
`delete_one` by `(song_name, username)`; 404 when nothing was deleted. -/
def delete_review (db : DB) (username song_name : String) :
    Except HTTPException DB :=
  if db.reviews.any (reviewKey song_name username) then
    .ok { db with reviews := db.reviews.eraseP (reviewKey song_name username) }
  else
    .error ⟨404, "Review not found"⟩

/-- `delete_song_by_name` (`DELETE /api/songs/{username}/{song_name}`):
`delete_one` on songs by `(song, username)`; 404 when nothing was deleted;
on success also `delete_one` on reviews by `(song_name, username)`. -/
def delete_song_by_name (db : DB) (username song_name : String) :
    Except HTTPException DB :=
  if db.songs.any (songKey song_name username) then
    .ok { db with songs := db.songs.eraseP (songKey song_name username),
                  reviews := db.reviews.eraseP (reviewKey song_name username) }
  else
    .error ⟨404, "Song not found"⟩

/-- `clear_all_user_songs` (`DELETE /api/songs/{username}`):
`delete_many` on songs then on reviews by `username`; returns the song
`deleted_count`. Never raises. -/
def clear_all_user_songs (db : DB) (username : String) : DB × Nat :=
  ({ db with songs := db.songs.filter fun d => !(d.username == username),
             reviews := db.reviews.filter fun r => !(r.username == username) },
   db.songs.countP fun d => d.username == username)

/-- One element of the `songs` list returned by `GET /api/songs/{username}`:
the song document (without `_id`) plus the attached review fields. -/
structure SongView where
  song : String
  username : String
  artist : Option String
  title : Option String
  image : Option String
  listeners : Option String
  url : Option String
  user_score : Option Int
  user_review : Option String
  has_review : Bool
deriving Repr, DecidableEq

/-- The review filter used by `get_user_songs`: `username`,
`song_name = song_doc.get("song", "")`, `artist = song_doc.get("artist", "")`,
`title = song_doc.get("title", "")`. A song stored with `artist = None`
(or `title = None`) makes the filter value `None`, which matches no stored
review (every review document carries string `artist`/`title`). -/
def reviewLookupKey (username : String) (sd : SongDoc) (r : ReviewDoc) : Bool :=
  r.username == username && r.song_name == sd.song &&
    (match sd.artist with
     | some a => r.artist == a
     | none => false) &&
    (match sd.title with
     | some t => r.title == t
     | none => false)

/-- The per-song enrichment step of `get_user_songs`. -/
def enrichSong (db : DB) (username : String) (sd : SongDoc) : SongView :=
  match db.reviews.find? (reviewLookupKey username sd) with
  | some r =>
      { song := sd.song, username := sd.username, artist := sd.artist,
        title := sd.title, image := sd.image, listeners := sd.listeners,
        url := sd.url, user_score := some r.score,
        user_review := some r.review_text, has_review := true }
  | none =>
      { song := sd.song, username := sd.username, artist := sd.artist,
        title := sd.title, image := sd.image, listeners := sd.listeners,
        url := sd.url, user_score := none, user_review := none,
        has_review := false }

/-- The songs of one user, in collection order. -/
def userSongs (db : DB) (username : String) : List SongDoc :=
  db.songs.filter fun d => d.username == username

/-- `get_user_songs` (`GET /api/songs/{username}`). -/
def get_user_songs (db : DB) (username : String) : List SongView :=
  (userSongs db username).map (enrichSong db username)

/-!
## Search aggregator and cover-art resolver

External calls are oracles. `get_musicbrainz_image` wraps its whole body
in `try/except Exception`, so its embedding is a total function into
`Option String`: no exception can propagate out of it. `search_songs`
has a `try` whose handlers are `except httpx.RequestError` and then
`except Exception`; since `fastapi.HTTPException` is a subclass of
`Exception`, the `HTTPException` deliberately raised on a non-200
Last.fm response is caught by the second handler and re-raised with
detail `"Search error: " + str(e)`, where starlette's
`HTTPException.__str__` is `f"{status_code}: {detail}"`. The embedding
keeps the raw body (`search_songs_body`, returning `Except PyExn`) apart
from the handler wrapping (`search_songs`) to mirror this flow.
-/

/-- One entry of the parsed MusicBrainz `releases` list. -/
structure Release where
  releaseGroup : Option String
deriving Repr, DecidableEq

/-- One entry of the parsed MusicBrainz `recordings` list. -/
structure Recording where
  releases : List Release
deriving Repr, DecidableEq

/-- Outcome of the MusicBrainz recording-search GET: an exception
(connection error, timeout, JSON decode failure, ...) or a status code
with the parsed `recordings` list. -/
inductive MBOutcome where
  | exn
  | ok (status : Nat) (recordings : List Recording)
deriving Repr, DecidableEq

/-- Outcome of the Cover Art Archive HEAD probe for one release-group id:
an exception or a status code with the final (post-redirect) URL. -/
inductive ProbeOutcome where
  | exn
  | ok (status : Nat) (finalUrl : String)
deriving Repr, DecidableEq

/-- The remote world seen by one `get_musicbrainz_image` call. -/
structure CoverOracle where
  mb : MBOutcome
  probe : String → ProbeOutcome

/-- Extraction of the release-group id from the parsed recordings: take
the first recording, its first release, and that release's
`release-group` id, if each exists (lines 85-91 of the source). -/
def releaseGroupOf (recs : List Recording) : Option String :=
  match recs.head? with
  | none => none
  | some rec =>
      match rec.releases.head? with
      | none => none
      | some rel => rel.releaseGroup

/-- The Cover Art Archive probe (lines 93-96): the front-cover URL when
the HEAD answers 200, otherwise nothing. -/
def coverProbeStep (c : CoverOracle) (rgid : String) : Option String :=
  match c.probe rgid with
  | .exn => none
  | .ok st u => if st == 200 then some u else none

/-- `get_musicbrainz_image`: two-step lookup, every failure or miss
yields `none`; the `try/except` around the whole body makes the function
total — modelled by the `.exn` outcomes mapping to `none`. -/
def get_musicbrainz_image (c : CoverOracle) : Option String :=
  match c.mb with
  | .exn => none
  | .ok status recs =>
      if status == 200 then
        match releaseGroupOf recs with
        | none => none
        | some rgid => coverProbeStep c rgid
      else none

/-- One entry of the Last.fm `trackmatches` list; `get` with defaults is
modelled by `Option` fields. -/
structure LfmTrack where
  artist : Option String
  name : Option String
  listeners : Option String
  url : Option String
deriving Repr, DecidableEq

/-- The `results.trackmatches.track` field of the Last.fm payload:
absent (any of the three nesting keys missing), a single object, or a
list. -/
inductive TrackField where
  | absent
  | single (t : LfmTrack)
  | multiple (ts : List LfmTrack)
deriving Repr, DecidableEq

/-- Outcome of the Last.fm track-search GET: an `httpx.RequestError`
(connection failure) or a status code with the parsed payload. -/
inductive LfmOutcome where
  | connError
  | ok (status : Nat) (data : TrackField)
deriving Repr, DecidableEq

/-- The remote world seen by one `POST /api/search` request: the Last.fm
call plus one `CoverOracle` per track index. -/
structure SearchOracle where
  lastfm : LfmOutcome
  cover : Nat → CoverOracle

/-- The Python exceptions that can cross the `try` body of `search_songs`. -/
inductive PyExn where
  | requestError
  | httpExc (status : Nat) (detail : String)
deriving Repr, DecidableEq

/-- `str(e)` for the exceptions above; starlette's `HTTPException.__str__`
renders `f"{status_code}: {detail}"`. -/
def strOfPyExn : PyExn → String
  | .requestError => "request error"
  | .httpExc s d => toString s ++ ": " ++ d

/-- Normalization of the track field: a single object becomes a
one-element list, absence an empty one. -/
def trackList : TrackField → List LfmTrack
  | .absent => []
  | .single t => [t]
  | .multiple ts => ts

/-- One enriched record of the returned `songs` list. -/
structure TrackData where
  name : String
  artist : String
  title : String
  image : Option String
  listeners : Option String
  url : Option String
deriving Repr, DecidableEq

/-- The per-track assembly inside the `search_songs` loop. -/
def buildTrack (t : LfmTrack) (img : Option String) : TrackData :=
  let artist_name := t.artist.getD "Unknown Artist"
  let track_title := t.name.getD "Unknown Track"
  { name := artist_name ++ " - " ++ track_title, artist := artist_name,
    title := track_title, image := img, listeners := t.listeners, url := t.url }

/-- The `search_songs` loop: the `i`-th track's cover art is resolved
against its own oracle, sequentially. -/
def processTracks (o : SearchOracle) : Nat → List LfmTrack → List TrackData
  | _, [] => []
  | i, t :: ts =>
      buildTrack t (get_musicbrainz_image (o.cover i)) :: processTracks o (i + 1) ts

/-- The `try` body of `search_songs`: connection failure raises
`httpx.RequestError`; a non-200 status raises
`HTTPException(500, "Last.fm API error")`; otherwise the tracks are
assembled (the cover-art step never raises). -/
def search_songs_body (o : SearchOracle) : Except PyExn (List TrackData) :=
  match o.lastfm with
  | .connError => .error .requestError
  | .ok status data =>
      if status == 200 then .ok (processTracks o 0 (trackList data))
      else .error (.httpExc 500 "Last.fm API error")

/-- `search_songs` (`POST /api/search`): the body wrapped by the two
`except` clauses, in order — `httpx.RequestError` first, then the
catch-all `except Exception` which also catches the deliberately raised
`HTTPException` and re-wraps its text. -/
def search_songs (o : SearchOracle) : Except HTTPException (List TrackData) :=
  match search_songs_body o with
  | .ok r => .ok r
  | .error .requestError => .error ⟨500, "Failed to connect to Last.fm API"⟩
  | .error e => .error ⟨500, "Search error: " ++ strOfPyExn e⟩

/-!
## Helper lemmas about the list-collection semantics
-/

/-- After `delete_one` (`eraseP`) on a collection holding at most one
match, no match remains. -/
theorem countP_eraseP_of_le_one {α : Type} {p : α → Bool} {l : List α}
    (h : l.countP p ≤ 1) : (l.eraseP p).countP p = 0 := by
  induction l with
  | nil => rfl
  | cons a as ih =>
      rw [List.eraseP_cons]
      by_cases hp : p a
      · simp only [hp, cond_true]
        rw [List.countP_cons_of_pos _ _ hp] at h
        omega
      · simp only [hp, cond_false]
        rw [List.countP_cons_of_neg _ _ hp] at h
        rw [List.countP_cons_of_neg _ _ hp]
        exact ih h

/-- A map that fixes every member of the list is the identity on it. -/
theorem map_id_on {α : Type} {l : List α} {f : α → α}
    (h : ∀ a ∈ l, f a = a) : l.map f = l := by
  induction l with
  | nil => rfl
  | cons a as ih =>
      simp only [List.map_cons, h a (List.mem_cons_self a as)]
      rw [ih fun x hx => h x (List.mem_cons_of_mem a hx)]

/-- `replace_one` by `_id` on a collection with unique ids and at most
one key match leaves exactly the replacement as the key's match. -/
theorem filter_map_replace {l : List ReviewDoc} {ex nd : ReviewDoc}
    {key : ReviewDoc → Bool}
    (hnd : (l.map fun r => r.rid).Nodup)
    (hfind : l.find? key = some ex)
    (hcount : l.countP key ≤ 1)
    (hknew : key nd = true) :
    (l.map fun r => if r.rid == ex.rid then nd else r).filter key = [nd] := by
  induction l with
  | nil => simp at hfind
  | cons a as ih =>
      rw [List.map_cons] at hnd
      rw [List.nodup_cons] at hnd
      by_cases hka : key a
      · have hax : ex = a := by
          rw [List.find?_cons_of_pos _ hka] at hfind
          exact (Option.some.injEq _ _).mp hfind.symm
        subst hax
        have hcnt0 : as.countP key = 0 := by
          rw [List.countP_cons_of_pos _ _ hka] at hcount
          omega
        have hmapid : (as.map fun r => if r.rid == ex.rid then nd else r) = as := by
          apply map_id_on
          intro r hr
          have hne : r.rid ≠ ex.rid := by
            intro he
            exact hnd.1 (he ▸ List.mem_map_of_mem (fun r => r.rid) hr)
          simp [hne]
        have hfil : List.filter key as = [] :=
          List.filter_eq_nil_iff.mpr (List.countP_eq_zero.mp hcnt0)
        rw [List.map_cons, if_pos (by simp), hmapid,
          List.filter_cons_of_pos hknew, hfil]
      · rw [List.find?_cons_of_neg _ hka] at hfind
        have hrid : a.rid ≠ ex.rid := by
          intro he
          exact hnd.1
            (he ▸ List.mem_map_of_mem (fun r => r.rid)
              (List.mem_of_find?_eq_some hfind))
        rw [List.countP_cons_of_neg _ _ hka] at hcount
        simp only [List.map_cons]
        rw [if_neg (by simp [hrid])]
        rw [List.filter_cons_of_neg (by simp [hka])]
        exact ih hnd.2 hfind hcount

/-- The id-uniqueness and id-freshness invariant of the `reviews`
collection (MongoDB enforces a unique index on `_id`; generated ids are
fresh). -/
def RidsOk (db : DB) : Prop :=
  (db.reviews.map fun r => r.rid).Nodup ∧ ∀ r ∈ db.reviews, r.rid < db.nextId

instance : DecidablePred RidsOk := fun db => by
  unfold RidsOk
  infer_instance

/-!
## Claim theorems
-/

/-- C3. `clear_all_user_songs` (`DELETE /api/songs/{username}`) always
succeeds (its embedding is total: the endpoint raises nothing), leaves
zero songs and zero reviews for the user, and reports `deleted_count`
equal to the number of the user's songs — reviews are not counted. -/
theorem clear_all_user_songs_spec (db : DB) (username : String) :
    (clear_all_user_songs db username).2 =
      db.songs.countP (fun d => d.username == username) ∧
    ((clear_all_user_songs db username).1).songs.countP
      (fun d => d.username == username) = 0 ∧
    ((clear_all_user_songs db username).1).reviews.countP
      (fun r => r.username == username) = 0 := by
  refine ⟨rfl, ?_, ?_⟩ <;>
  · rw [List.countP_eq_zero]
    intro a ha
    have := List.of_mem_filter ha
    simp only [Bool.not_eq_true'] at this
    simp [clear_all_user_songs, this]

/-- C4. `add_song` (`POST /api/songs`) fails with the duplicate error
exactly when a song with the same `(song, username)` already exists;
otherwise it appends the song under a generated id and returns that id,
and re-adding the same song immediately afterwards is rejected. -/
theorem add_song_conflict_spec (db : DB) (s : Song) :
    (add_song db s = .error ⟨400, "Song already exists for this user"⟩ ↔
      ∃ d ∈ db.songs, songKey s.song s.username d) ∧
    ∀ db' i, add_song db s = .ok (db', i) →
      i = db.nextId ∧
      db'.songs = db.songs ++ [mkSongDoc db.nextId s] ∧
      add_song db' s = .error ⟨400, "Song already exists for this user"⟩ := by
  constructor
  · unfold add_song
    cases hf : db.songs.find? (songKey s.song s.username) with
    | none =>
        simp only [reduceCtorEq, false_iff]
        rw [List.find?_eq_none] at hf
        rintro ⟨d, hd, hkd⟩
        exact hf d hd hkd
    | some d =>
        simp only [true_iff]
        exact ⟨d, List.mem_of_find?_eq_some hf, List.find?_some hf⟩
  · intro db' i hok
    unfold add_song at hok
    cases hf : db.songs.find? (songKey s.song s.username) with
    | none =>
        rw [hf] at hok
        have h1 : db' = { db with songs := db.songs ++ [mkSongDoc db.nextId s],
                                  nextId := db.nextId + 1 } ∧ i = db.nextId := by
          cases hok
          exact ⟨rfl, rfl⟩
        obtain ⟨hdb, hi⟩ := h1
        refine ⟨hi, by rw [hdb], ?_⟩
        unfold add_song
        rw [hdb]
        simp only [List.find?_append, hf, Option.none_or]
        have hk : songKey s.song s.username (mkSongDoc db.nextId s) = true := by
          simp [songKey, mkSongDoc]
        rw [List.find?_cons_of_pos _ hk]
    | some d =>
        rw [hf] at hok
        cases hok

/-- C1. `delete_song_by_name` (`DELETE /api/songs/{username}/{song_name}`)
fails with 404 exactly when no song matches `(song_name, username)`; on
success the review for that pair is gone (under the upsert-maintained
invariant of at most one review per pair): a subsequent lookup finds
nothing and a subsequent `delete_review` reports 404. -/
theorem delete_song_cascades_review (db : DB) (username song_name : String)
    (hcount : db.reviews.countP (reviewKey song_name username) ≤ 1) :
    (delete_song_by_name db username song_name =
        .error ⟨404, "Song not found"⟩ ↔
      ¬ ∃ d ∈ db.songs, songKey song_name username d) ∧
    ∀ db', delete_song_by_name db username song_name = .ok db' →
      db'.reviews.find? (reviewKey song_name username) = none ∧
      delete_review db' username song_name =
        .error ⟨404, "Review not found"⟩ := by
  constructor
  · unfold delete_song_by_name
    by_cases ha : db.songs.any (songKey song_name username)
    · rw [if_pos ha]
      simp only [reduceCtorEq, false_iff, not_not]
      exact List.any_eq_true.mp ha
    · rw [if_neg ha]
      simp only [true_iff]
      intro hex
      exact ha (List.any_eq_true.mpr hex)
  · intro db' hok
    unfold delete_song_by_name at hok
    by_cases ha : db.songs.any (songKey song_name username)
    · rw [if_pos ha] at hok
      have hdb : db'.reviews = db.reviews.eraseP (reviewKey song_name username) := by
        cases hok
        rfl
      have hz : (db'.reviews).countP (reviewKey song_name username) = 0 := by
        rw [hdb]
        exact countP_eraseP_of_le_one hcount
      rw [List.countP_eq_zero] at hz
      refine ⟨List.find?_eq_none.mpr hz, ?_⟩
      unfold delete_review
      rw [if_neg ?_]
      intro hany
      obtain ⟨x, hx, hkx⟩ := List.any_eq_true.mp hany
      exact hz x hx hkx
    · rw [if_neg ha] at hok
      cases hok

/-- Instantiation of C1: a user with one saved song and its review;
deleting the song removes the review as well. -/
def c1db : DB :=
  { songs := [{ sid := 0, song := "a - b", username := "u", artist := some "a",
                title := some "b", image := none, listeners := none, url := none }],
    reviews := [{ rid := 1, song_name := "a - b", artist := "a", title := "b",
                  username := "u", score := 8, review_text := "great", image := none,
                  created_at := 5, updated_at := 5 }],
    nextId := 2 }

/-- Witness for C1 at a concrete state. -/
theorem delete_song_cascades_review_witness :
    (c1db.reviews.countP (reviewKey "a - b" "u") ≤ 1) ∧
    ((delete_song_by_name c1db "u" "a - b" =
        .error ⟨404, "Song not found"⟩ ↔
      ¬ ∃ d ∈ c1db.songs, songKey "a - b" "u" d) ∧
    ∀ db', delete_song_by_name c1db "u" "a - b" = .ok db' →
      db'.reviews.find? (reviewKey "a - b" "u") = none ∧
      delete_review db' "u" "a - b" =
        .error ⟨404, "Review not found"⟩) :=
  ⟨by decide, delete_song_cascades_review c1db "u" "a - b" (by decide)⟩

/-- The replacement document written by the upsert carries the replaced
review's `_id`: its projection to `rid` is the identity. -/
theorem rid_of_replace (ex : ReviewDoc) (rv : Review) (now : Nat) :
    (fun r : ReviewDoc => r.rid) ∘
      (fun r : ReviewDoc => if r.rid == ex.rid then mkReviewDoc ex.rid rv now else r) =
      fun r : ReviewDoc => r.rid := by
  funext r
  by_cases h : r.rid = ex.rid
  · simp [h, mkReviewDoc]
  · simp [h]

/-- The upsert's replace branch preserves `RidsOk`. -/
theorem ridsOk_replace {db : DB} (hinv : RidsOk db) (ex : ReviewDoc)
    (rv : Review) (now : Nat) :
    RidsOk { db with
      reviews := db.reviews.map (fun r =>
          if r.rid == ex.rid then mkReviewDoc ex.rid rv now else r) } := by
  constructor
  · show ((db.reviews.map (fun r =>
        if r.rid == ex.rid then mkReviewDoc ex.rid rv now else r)).map
          (fun r => r.rid)).Nodup
    rw [List.map_map, rid_of_replace]
    exact hinv.1
  · intro r' hr'
    obtain ⟨r, hr, hfr⟩ := List.mem_map.mp hr'
    have : r'.rid = r.rid := by
      rw [← hfr]
      exact congrFun (rid_of_replace ex rv now) r
    rw [this]
    exact hinv.2 r hr

/-- The upsert's insert branch preserves `RidsOk`. -/
theorem ridsOk_insert {db : DB} (hinv : RidsOk db) (rv : Review) (now : Nat) :
    RidsOk { db with reviews := db.reviews ++ [mkReviewDoc db.nextId rv now],
                     nextId := db.nextId + 1 } := by
  constructor
  · show ((db.reviews ++ [mkReviewDoc db.nextId rv now]).map fun r => r.rid).Nodup
    rw [List.map_append]
    rw [List.nodup_append]
    refine ⟨hinv.1, List.nodup_singleton _, ?_⟩
    intro a ha hb
    simp only [List.map_cons, List.map_nil, List.mem_singleton] at hb
    obtain ⟨r, hr, hfr⟩ := List.mem_map.mp ha
    have hlt := hinv.2 r hr
    have : a = db.nextId := by simpa [mkReviewDoc] using hb
    omega
  · intro r hr
    show r.rid < db.nextId + 1
    rcases List.mem_append.mp hr with h | h
    · have := hinv.2 r h
      omega
    · simp only [List.mem_singleton] at h
      simp [h, mkReviewDoc]

/-- The new review document matches the upsert key of its own request. -/
theorem reviewKey_mkReviewDoc (rid : Nat) (rv : Review) (now : Nat) :
    reviewKey rv.song_name rv.username (mkReviewDoc rid rv now) = true := by
  simp [reviewKey, mkReviewDoc]

/-- C2. `add_review` (`POST /api/reviews`) fails with 404 exactly when no
`SavedSong` matches `(song = song_name, username)`; a successful upsert
leaves exactly one review for the pair, carrying the submitted score and
review text. Both hypotheses are re-established by the conclusion
(`RidsOk db'` and a one-element filter), so the property holds along any
sequence of successful upserts for the same pair. -/
theorem add_review_upsert_unique (db : DB) (now : Nat) (rv : Review)
    (hinv : RidsOk db)
    (hcount : db.reviews.countP (reviewKey rv.song_name rv.username) ≤ 1) :
    (add_review db now rv = .error ⟨404, "Song not found in user's list"⟩ ↔
      db.songs.find? (songKey rv.song_name rv.username) = none) ∧
    ∀ db' msg, add_review db now rv = .ok (db', msg) →
      RidsOk db' ∧
      ∃ d, db'.reviews.filter (reviewKey rv.song_name rv.username) = [d] ∧
        d.score = rv.score ∧ d.review_text = rv.review_text := by
  constructor
  · unfold add_review
    cases hfs : db.songs.find? (songKey rv.song_name rv.username) with
    | none => simp
    | some s =>
        simp only [reduceCtorEq, false_iff]
        cases db.reviews.find? (reviewKey rv.song_name rv.username) <;> simp
  · intro db' msg hok
    unfold add_review at hok
    cases hfs : db.songs.find? (songKey rv.song_name rv.username) with
    | none =>
        rw [hfs] at hok
        cases hok
    | some s =>
        rw [hfs] at hok
        cases hfr : db.reviews.find? (reviewKey rv.song_name rv.username) with
        | some ex =>
            rw [hfr] at hok
            have hdb : db' = { db with
                reviews := db.reviews.map (fun r =>
                    if r.rid == ex.rid then mkReviewDoc ex.rid rv now else r) } := by
              cases hok
              rfl
            subst hdb
            refine ⟨ridsOk_replace hinv ex rv now, mkReviewDoc ex.rid rv now, ?_, rfl, rfl⟩
            exact filter_map_replace hinv.1 hfr hcount (reviewKey_mkReviewDoc _ _ _)
        | none =>
            rw [hfr] at hok
            have hdb : db' = { db with
                reviews := db.reviews ++ [mkReviewDoc db.nextId rv now],
                nextId := db.nextId + 1 } := by
              cases hok
              rfl
            subst hdb
            refine ⟨ridsOk_insert hinv rv now, mkReviewDoc db.nextId rv now, ?_, rfl, rfl⟩
            show (db.reviews ++ [mkReviewDoc db.nextId rv now]).filter _ = _
            rw [List.filter_append]
            rw [List.filter_eq_nil_iff.mpr (List.find?_eq_none.mp hfr)]
            rw [List.filter_cons_of_pos (reviewKey_mkReviewDoc _ _ _)]
            rfl

/-- Instantiation of C2: one saved song, no review yet. -/
def c2db : DB :=
  { songs := [{ sid := 0, song := "x - y", username := "v", artist := some "x",
                title := some "y", image := none, listeners := none, url := none }],
    reviews := [], nextId := 1 }

/-- The review submitted in the C2 witness. -/
def c2rv : Review :=
  { song_name := "x - y", artist := "x", title := "y", username := "v",
    score := 9, review_text := "nice", image := none }

/-- Witness for C2 at a concrete state. -/
theorem add_review_upsert_unique_witness :
    (RidsOk c2db ∧ c2db.reviews.countP (reviewKey c2rv.song_name c2rv.username) ≤ 1) ∧
    ((add_review c2db 3 c2rv = .error ⟨404, "Song not found in user's list"⟩ ↔
      c2db.songs.find? (songKey c2rv.song_name c2rv.username) = none) ∧
    ∀ db' msg, add_review c2db 3 c2rv = .ok (db', msg) →
      RidsOk db' ∧
      ∃ d, db'.reviews.filter (reviewKey c2rv.song_name c2rv.username) = [d] ∧
        d.score = c2rv.score ∧ d.review_text = c2rv.review_text) :=
  ⟨⟨by decide, by decide⟩,
   add_review_upsert_unique c2db 3 c2rv (by decide) (by decide)⟩

/-- C10. When the upsert replaces an existing review, the stored review
for the pair keeps only the record's internal id (`rid = ex.rid`); its
`created_at` is restamped to the replacement time and equals
`updated_at`, so the original creation time is not preserved whenever it
differs from the replacement time. -/
theorem add_review_resets_created_at (db : DB) (now : Nat) (rv : Review)
    (ex : ReviewDoc)
    (hinv : RidsOk db)
    (hcount : db.reviews.countP (reviewKey rv.song_name rv.username) ≤ 1)
    (hsong : (db.songs.find? (songKey rv.song_name rv.username)).isSome = true)
    (hex : db.reviews.find? (reviewKey rv.song_name rv.username) = some ex) :
    ∃ db', add_review db now rv = .ok (db', "Review updated successfully") ∧
      ∃ d, db'.reviews.filter (reviewKey rv.song_name rv.username) = [d] ∧
        d.rid = ex.rid ∧ d.created_at = now ∧ d.updated_at = now ∧
        (ex.created_at ≠ now → d.created_at ≠ ex.created_at) := by
  obtain ⟨s, hs⟩ := Option.isSome_iff_exists.mp hsong
  refine ⟨{ db with
      reviews := db.reviews.map (fun r =>
          if r.rid == ex.rid then mkReviewDoc ex.rid rv now else r) }, ?_, ?_⟩
  · unfold add_review
    rw [hs, hex]
  · refine ⟨mkReviewDoc ex.rid rv now, ?_, rfl, rfl, rfl, ?_⟩
    · exact filter_map_replace hinv.1 hex hcount (reviewKey_mkReviewDoc _ _ _)
    · intro hne
      simp only [mkReviewDoc]
      omega

/-- Instantiation of C10: one saved song with a review created at time 2;
the upsert at time 9 replaces it. -/
def c10db : DB :=
  { songs := [{ sid := 0, song := "p - q", username := "w", artist := some "p",
                title := some "q", image := none, listeners := none, url := none }],
    reviews := [{ rid := 1, song_name := "p - q", artist := "p", title := "q",
                  username := "w", score := 4, review_text := "ok", image := none,
                  created_at := 2, updated_at := 2 }],
    nextId := 2 }

/-- The review submitted in the C10 witness. -/
def c10rv : Review :=
  { song_name := "p - q", artist := "p", title := "q", username := "w",
    score := 7, review_text := "better", image := none }

/-- The stored review replaced in the C10 witness. -/
def c10ex : ReviewDoc :=
  { rid := 1, song_name := "p - q", artist := "p", title := "q",
    username := "w", score := 4, review_text := "ok", image := none,
    created_at := 2, updated_at := 2 }

/-- Witness for C10 at a concrete state. -/
theorem add_review_resets_created_at_witness :
    (RidsOk c10db ∧
     c10db.reviews.countP (reviewKey c10rv.song_name c10rv.username) ≤ 1 ∧
     (c10db.songs.find? (songKey c10rv.song_name c10rv.username)).isSome = true ∧
     c10db.reviews.find? (reviewKey c10rv.song_name c10rv.username) = some c10ex) ∧
    (∃ db', add_review c10db 9 c10rv = .ok (db', "Review updated successfully") ∧
      ∃ d, db'.reviews.filter (reviewKey c10rv.song_name c10rv.username) = [d] ∧
        d.rid = c10ex.rid ∧ d.created_at = 9 ∧ d.updated_at = 9 ∧
        (c10ex.created_at ≠ 9 → d.created_at ≠ c10ex.created_at)) :=
  ⟨⟨by decide, by decide, by decide, by decide⟩,
   add_review_resets_created_at c10db 9 c10rv c10ex
     (by decide) (by decide) (by decide) (by decide)⟩

/-- A state whose single review already holds score 5, text "x" and
`updated_at = 7`: the `$set` of an identical update issued at time 7
changes nothing, so MongoDB reports `modified_count = 0`. -/
def c5db : DB :=
  { songs := [{ sid := 0, song := "s", username := "u", artist := some "a",
                title := some "b", image := none, listeners := none, url := none }],
    reviews := [{ rid := 1, song_name := "s", artist := "a", title := "b",
                  username := "u", score := 5, review_text := "x", image := none,
                  created_at := 7, updated_at := 7 }],
    nextId := 2 }

/-- Counterexample to C5 as stated: a review for `("s", "u")` exists,
yet `update_review` answers 404, because the no-op `$set` leaves
`modified_count = 0` and the endpoint tests `modified_count`, not
`matched_count`. -/
theorem update_review_notfound_counterexample :
    (c5db.reviews.find? (reviewKey "s" "u")).isSome = true ∧
    update_review c5db 7 "u" "s" ⟨5, "x"⟩ = .error ⟨404, "Review not found"⟩ :=
  ⟨rfl, rfl⟩

/-- C5 (amended). `update_review` fails with 404 exactly when no review
matches `(song_name, username)` or when the `$set` would not change the
first matching review (identical score and text, and `updated_at` already
equal to the current timestamp); on success it rewrites only the first
matching review — to `applyReviewUpdate u now ex`, which by construction
alters only `score`, `review_text` and `updated_at` — and leaves the
songs, the id counter and every other review unchanged. -/
theorem update_review_modified_spec (db : DB) (now : Nat)
    (username song_name : String) (u : ReviewUpdate) :
    (update_review db now username song_name u =
        .error ⟨404, "Review not found"⟩ ↔
      db.reviews.find? (reviewKey song_name username) = none ∨
        ∃ ex, db.reviews.find? (reviewKey song_name username) = some ex ∧
          applyReviewUpdate u now ex = ex) ∧
    ∀ db', update_review db now username song_name u = .ok db' →
      ∃ ex, db.reviews.find? (reviewKey song_name username) = some ex ∧
        applyReviewUpdate u now ex ≠ ex ∧
        db'.songs = db.songs ∧ db'.nextId = db.nextId ∧
        db'.reviews = setFirst (reviewKey song_name username)
          (applyReviewUpdate u now ex) db.reviews := by
  constructor
  · cases hf : db.reviews.find? (reviewKey song_name username) with
    | none => simp [update_review, hf]
    | some ex =>
        simp only [update_review, hf]
        by_cases heq : applyReviewUpdate u now ex = ex
        · rw [if_pos heq]
          simp only [true_iff]
          exact Or.inr ⟨ex, rfl, heq⟩
        · rw [if_neg heq]
          simp only [reduceCtorEq, false_iff]
          rintro (h | ⟨ex2, hex2, heq2⟩)
          · cases h
          · rw [Option.some.injEq] at hex2
            exact heq (hex2 ▸ heq2)
  · intro db' hok
    cases hf : db.reviews.find? (reviewKey song_name username) with
    | none =>
        simp only [update_review, hf] at hok
        cases hok
    | some ex =>
        simp only [update_review, hf] at hok
        by_cases heq : applyReviewUpdate u now ex = ex
        · rw [if_pos heq] at hok
          cases hok
        · rw [if_neg heq] at hok
          refine ⟨ex, rfl, heq, ?_, ?_, ?_⟩ <;>
          · cases hok
            rfl

/-- Witness for the amended C5 at a concrete state (an update that does
change the review). -/
theorem update_review_modified_spec_witness :
    (update_review c5db 9 "u" "s" ⟨6, "y"⟩ =
        .error ⟨404, "Review not found"⟩ ↔
      c5db.reviews.find? (reviewKey "s" "u") = none ∨
        ∃ ex, c5db.reviews.find? (reviewKey "s" "u") = some ex ∧
          applyReviewUpdate ⟨6, "y"⟩ 9 ex = ex) ∧
    ∀ db', update_review c5db 9 "u" "s" ⟨6, "y"⟩ = .ok db' →
      ∃ ex, c5db.reviews.find? (reviewKey "s" "u") = some ex ∧
        applyReviewUpdate ⟨6, "y"⟩ 9 ex ≠ ex ∧
        db'.songs = c5db.songs ∧ db'.nextId = c5db.nextId ∧
        db'.reviews = setFirst (reviewKey "s" "u")
          (applyReviewUpdate ⟨6, "y"⟩ 9 ex) c5db.reviews :=
  update_review_modified_spec c5db 9 "u" "s" ⟨6, "y"⟩

/-- C8. `get_user_songs` (`GET /api/songs/{username}`) returns one view
per saved song of the user, in order, copying the song's fields; the
review attached to the `i`-th view is looked up by the four-field key
`(username, song, artist, title)`: when it exists the view carries
`user_score`, `user_review` and `has_review = true`, otherwise
`has_review = false` and no review fields. -/
theorem get_user_songs_review_flags (db : DB) (username : String) :
    (get_user_songs db username).length = (userSongs db username).length ∧
    ∀ i (h1 : i < (get_user_songs db username).length)
      (h2 : i < (userSongs db username).length),
      (((get_user_songs db username).get ⟨i, h1⟩).song =
          ((userSongs db username).get ⟨i, h2⟩).song ∧
        ((get_user_songs db username).get ⟨i, h1⟩).username =
          ((userSongs db username).get ⟨i, h2⟩).username ∧
        ((get_user_songs db username).get ⟨i, h1⟩).artist =
          ((userSongs db username).get ⟨i, h2⟩).artist ∧
        ((get_user_songs db username).get ⟨i, h1⟩).title =
          ((userSongs db username).get ⟨i, h2⟩).title) ∧
      (∀ r, db.reviews.find?
          (reviewLookupKey username ((userSongs db username).get ⟨i, h2⟩)) =
            some r →
        ((get_user_songs db username).get ⟨i, h1⟩).user_score = some r.score ∧
        ((get_user_songs db username).get ⟨i, h1⟩).user_review =
          some r.review_text ∧
        ((get_user_songs db username).get ⟨i, h1⟩).has_review = true) ∧
      (db.reviews.find?
          (reviewLookupKey username ((userSongs db username).get ⟨i, h2⟩)) =
            none →
        ((get_user_songs db username).get ⟨i, h1⟩).has_review = false ∧
        ((get_user_songs db username).get ⟨i, h1⟩).user_score = none ∧
        ((get_user_songs db username).get ⟨i, h1⟩).user_review = none) := by
  refine ⟨by simp [get_user_songs], ?_⟩
  intro i h1 h2
  have hv : (get_user_songs db username).get ⟨i, h1⟩ =
      enrichSong db username ((userSongs db username).get ⟨i, h2⟩) := by
    simp [get_user_songs]
  rw [hv]
  cases hr : db.reviews.find?
      (reviewLookupKey username ((userSongs db username).get ⟨i, h2⟩)) with
  | some r =>
      simp only [enrichSong, hr]
      refine ⟨by simp, ?_, ?_⟩
      · intro r2 hr2
        rw [Option.some.injEq] at hr2
        subst hr2
        simp
      · intro h
        cases h
  | none =>
      simp only [enrichSong, hr]
      refine ⟨by simp, ?_, ?_⟩
      · intro r2 hr2
        cases hr2
      · intro h
        simp

/-- Instantiation of C8: "u" has saved two songs and reviewed only the
first one. -/
def c8db : DB :=
  { songs := [{ sid := 0, song := "a - b", username := "u", artist := some "a",
                title := some "b", image := none, listeners := none, url := none },
              { sid := 1, song := "c - d", username := "u", artist := some "c",
                title := some "d", image := none, listeners := none, url := none }],
    reviews := [{ rid := 2, song_name := "a - b", artist := "a", title := "b",
                  username := "u", score := 10, review_text := "love it",
                  image := none, created_at := 1, updated_at := 1 }],
    nextId := 3 }

/-- Witness for C8: the reviewed song gets `has_review = true`, the other
`false`. -/
theorem get_user_songs_review_flags_witness :
    ((get_user_songs c8db "u").map (fun v => v.has_review) = [true, false]) ∧
    ((get_user_songs c8db "u").length = (userSongs c8db "u").length ∧
    ∀ i (h1 : i < (get_user_songs c8db "u").length)
      (h2 : i < (userSongs c8db "u").length),
      (((get_user_songs c8db "u").get ⟨i, h1⟩).song =
          ((userSongs c8db "u").get ⟨i, h2⟩).song ∧
        ((get_user_songs c8db "u").get ⟨i, h1⟩).username =
          ((userSongs c8db "u").get ⟨i, h2⟩).username ∧
        ((get_user_songs c8db "u").get ⟨i, h1⟩).artist =
          ((userSongs c8db "u").get ⟨i, h2⟩).artist ∧
        ((get_user_songs c8db "u").get ⟨i, h1⟩).title =
          ((userSongs c8db "u").get ⟨i, h2⟩).title) ∧
      (∀ r, c8db.reviews.find?
          (reviewLookupKey "u" ((userSongs c8db "u").get ⟨i, h2⟩)) = some r →
        ((get_user_songs c8db "u").get ⟨i, h1⟩).user_score = some r.score ∧
        ((get_user_songs c8db "u").get ⟨i, h1⟩).user_review =
          some r.review_text ∧
        ((get_user_songs c8db "u").get ⟨i, h1⟩).has_review = true) ∧
      (c8db.reviews.find?
          (reviewLookupKey "u" ((userSongs c8db "u").get ⟨i, h2⟩)) = none →
        ((get_user_songs c8db "u").get ⟨i, h1⟩).has_review = false ∧
        ((get_user_songs c8db "u").get ⟨i, h1⟩).user_score = none ∧
        ((get_user_songs c8db "u").get ⟨i, h1⟩).user_review = none)) :=
  ⟨by decide, get_user_songs_review_flags c8db "u"⟩

/-- "A failure at some step of the cover-art lookup": the recording
search raised, or it answered non-200, or the archive probe raises on
every id, or it answers non-200 on every id. -/
def coverFailed (c : CoverOracle) : Prop :=
  c.mb = .exn ∨
  (∀ s recs, c.mb = .ok s recs → s ≠ 200) ∨
  (∀ rg, c.probe rg = .exn) ∨
  (∀ rg s u, c.probe rg = .ok s u → s ≠ 200)

/-- Any exception or non-200 probe at any step of the two-step lookup
yields a null image; nothing propagates (the function is total). -/
theorem get_musicbrainz_image_of_failed (c : CoverOracle)
    (h : coverFailed c) : get_musicbrainz_image c = none := by
  cases hmb : c.mb with
  | exn => simp [get_musicbrainz_image, hmb]
  | ok s recs =>
      simp only [get_musicbrainz_image, hmb]
      by_cases hs : (s == 200) = true
      · rw [if_pos hs]
        cases hrg : releaseGroupOf recs with
        | none => rfl
        | some rgid =>
            rcases h with h | h | h | h
            · rw [hmb] at h
              cases h
            · exact absurd (beq_iff_eq.mp hs) (h s recs hmb)
            · simp [coverProbeStep, h rgid]
            · simp only [coverProbeStep]
              cases hp : c.probe rgid with
              | exn => rfl
              | ok st u =>
                  have hne : st ≠ 200 := h rgid st u hp
                  simp [hne]
      · rw [if_neg hs]

/-- The loop over tracks returns one record per track. -/
theorem processTracks_length (o : SearchOracle) (k : Nat)
    (ts : List LfmTrack) : (processTracks o k ts).length = ts.length := by
  induction ts generalizing k with
  | nil => rfl
  | cons t ts ih => simp [processTracks, ih]

/-- The `i`-th output record is the `i`-th track enriched with the image
resolved against that track's own cover oracle. -/
theorem processTracks_getElem (o : SearchOracle) (k : Nat)
    (ts : List LfmTrack) (i : Nat)
    (h1 : i < (processTracks o k ts).length) (h2 : i < ts.length) :
    (processTracks o k ts)[i] =
      buildTrack ts[i] (get_musicbrainz_image (o.cover (k + i))) := by
  induction ts generalizing k i with
  | nil => exact absurd h2 (Nat.not_lt_zero i)
  | cons t ts ih =>
      cases i with
      | zero => simp [processTracks]
      | succ n =>
          have h2x : n < ts.length := Nat.lt_of_succ_lt_succ h2
          have h1x : n < (processTracks o (k + 1) ts).length := by
            rw [processTracks_length]
            exact h2x
          simp only [processTracks, List.getElem_cons_succ]
          rw [ih (k + 1) n h1x h2x]
          have hk : k + 1 + n = k + (n + 1) := by omega
          rw [hk]

/-- C6. When the Last.fm call itself succeeds, the search returns a
record for every track regardless of cover-art outcomes: each record's
image is resolved against that track's own oracle, and a failing
resolution (any exception or non-200 probe) leaves that record's image
null without aborting the batch. -/
theorem cover_failure_isolated (o : SearchOracle) (data : TrackField)
    (hl : o.lastfm = .ok 200 data) :
    ∃ out, search_songs o = .ok out ∧
      out.length = (trackList data).length ∧
      (∀ i (h1 : i < out.length) (h2 : i < (trackList data).length),
        out[i] = buildTrack (trackList data)[i]
          (get_musicbrainz_image (o.cover i))) ∧
      (∀ i (h1 : i < out.length),
        coverFailed (o.cover i) → out[i].image = none) := by
  refine ⟨processTracks o 0 (trackList data), ?_,
    processTracks_length o 0 _, ?_, ?_⟩
  · simp [search_songs, search_songs_body, hl]
  · intro i h1 h2
    have hg := processTracks_getElem o 0 (trackList data) i h1 h2
    rw [Nat.zero_add] at hg
    exact hg
  · intro i h1 hfail
    have h2 : i < (trackList data).length := by
      rw [← processTracks_length o 0 (trackList data)]
      exact h1
    have hg := processTracks_getElem o 0 (trackList data) i h1 h2
    rw [Nat.zero_add] at hg
    rw [hg]
    show get_musicbrainz_image (o.cover i) = none
    exact get_musicbrainz_image_of_failed _ hfail

/-- A cover oracle for which both lookup steps succeed. -/
def c6goodCover : CoverOracle :=
  { mb := .ok 200 [{ releases := [{ releaseGroup := some "rg1" }] }],
    probe := fun _ => .ok 200 "http://archive/rg1/front" }

/-- A cover oracle whose recording search raises (simulated network
error). -/
def c6badCover : CoverOracle :=
  { mb := .exn, probe := fun _ => .exn }

/-- The Last.fm payload of the C6 witness: a batch of three tracks. -/
def c6data : TrackField :=
  .multiple [{ artist := some "a1", name := some "t1", listeners := some "10", url := none },
             { artist := some "a2", name := some "t2", listeners := some "20", url := none },
             { artist := some "a3", name := some "t3", listeners := some "30", url := none }]

/-- The search oracle of the C6 witness: cover-art resolution fails for
the second track only. -/
def c6oracle : SearchOracle :=
  { lastfm := .ok 200 c6data,
    cover := fun i => if i == 1 then c6badCover else c6goodCover }

/-- Witness for C6: three tracks, the middle resolution fails, the batch
still returns all three. -/
theorem cover_failure_isolated_witness :
    (c6oracle.lastfm = .ok 200 c6data ∧ coverFailed (c6oracle.cover 1)) ∧
    (∃ out, search_songs c6oracle = .ok out ∧
      out.length = (trackList c6data).length ∧
      (∀ i (h1 : i < out.length) (h2 : i < (trackList c6data).length),
        out[i] = buildTrack (trackList c6data)[i]
          (get_musicbrainz_image (c6oracle.cover i))) ∧
      (∀ i (h1 : i < out.length),
        coverFailed (c6oracle.cover i) → out[i].image = none)) :=
  ⟨⟨rfl, Or.inl rfl⟩, cover_failure_isolated c6oracle c6data rfl⟩

/-- C9. A Last.fm payload whose track field is a single object (upstream
omits the list wrapper on a unique match) is normalized into a
one-element list: the search returns exactly one enriched record. -/
theorem search_single_normalized (o : SearchOracle) (t : LfmTrack)
    (h : o.lastfm = .ok 200 (.single t)) :
    search_songs o = .ok [buildTrack t (get_musicbrainz_image (o.cover 0))] ∧
    ∀ out, search_songs o = .ok out → out.length = 1 := by
  have hb : search_songs o =
      .ok [buildTrack t (get_musicbrainz_image (o.cover 0))] := by
    simp [search_songs, search_songs_body, h, trackList, processTracks]
  refine ⟨hb, ?_⟩
  intro out hout
  rw [hb] at hout
  cases hout
  rfl

/-- The search oracle of the C9 witness: a single non-list match. -/
def c9oracle : SearchOracle :=
  { lastfm := .ok 200 (.single
      { artist := some "solo", name := some "only", listeners := none, url := none }),
    cover := fun _ => c6goodCover }

/-- Witness for C9 at a concrete single-object response. -/
theorem search_single_normalized_witness :
    search_songs c9oracle =
      .ok [buildTrack
        { artist := some "solo", name := some "only", listeners := none, url := none }
        (get_musicbrainz_image (c9oracle.cover 0))] ∧
    ∀ out, search_songs c9oracle = .ok out → out.length = 1 :=
  search_single_normalized c9oracle
    { artist := some "solo", name := some "only", listeners := none, url := none } rfl

/-- C7. A connection failure to Last.fm is surfaced as a 500 with the
connectivity detail; a non-200 Last.fm response is meant to surface
`"Last.fm API error"`, but the deliberately raised `HTTPException` is
itself caught by the function's catch-all `except Exception` handler and
re-raised wrapped, so the surfaced detail is
`"Search error: 500: Last.fm API error"` instead of the upstream error's
own text. -/
theorem search_error_surfacing (o : SearchOracle) (s : Nat) (d : TrackField) :
    (o.lastfm = .connError →
      search_songs o = .error ⟨500, "Failed to connect to Last.fm API"⟩) ∧
    (o.lastfm = .ok s d → s ≠ 200 →
      search_songs o =
        .error ⟨500, "Search error: 500: Last.fm API error"⟩ ∧
      "Search error: 500: Last.fm API error" ≠ "Last.fm API error") := by
  constructor
  · intro h
    simp [search_songs, search_songs_body, h]
  · intro h hs
    have hb : search_songs_body o = .error (.httpExc 500 "Last.fm API error") := by
      simp [search_songs_body, h, hs]
    constructor
    · simp only [search_songs, hb]
      rfl
    · decide

/-- The search oracle of the C7 witness, connection-failure side. -/
def c7conn : SearchOracle :=
  { lastfm := .connError, cover := fun _ => c6badCover }

/-- The search oracle of the C7 witness, non-200 side. -/
def c7up : SearchOracle :=
  { lastfm := .ok 503 .absent, cover := fun _ => c6badCover }

/-- Witness for C7 at concrete oracles. -/
theorem search_error_surfacing_witness :
    search_songs c7conn = .error ⟨500, "Failed to connect to Last.fm API"⟩ ∧
    (search_songs c7up =
        .error ⟨500, "Search error: 500: Last.fm API error"⟩ ∧
      "Search error: 500: Last.fm API error" ≠ "Last.fm API error") :=
  ⟨(search_error_surfacing c7conn 503 .absent).1 rfl,
   (search_error_surfacing c7up 503 .absent).2 rfl (by decide)⟩

/-- The song added in the C4 witness. -/
def c4s : Song :=
  { song := "m - n", username := "z", artist := some "m", title := some "n",
    image := none, listeners := none, url := none }

/-- The empty initial state of the C4 witness. -/
def c4db : DB := { songs := [], reviews := [], nextId := 0 }

/-- Witness for C4 at a concrete state. -/
theorem add_song_conflict_spec_witness :
    (add_song c4db c4s = .error ⟨400, "Song already exists for this user"⟩ ↔
      ∃ d ∈ c4db.songs, songKey c4s.song c4s.username d) ∧
    ∀ db' i, add_song c4db c4s = .ok (db', i) →
      i = c4db.nextId ∧
      db'.songs = c4db.songs ++ [mkSongDoc c4db.nextId c4s] ∧
      add_song db' c4s = .error ⟨400, "Song already exists for this user"⟩ :=
  add_song_conflict_spec c4db c4s
